import Mathlib

/-!
Verification of the go-escpos repository against its specification.

The fan-out writer (`cmd/multi.go`) is embedded directly from the source:
each underlying `escpos.Printer` is modelled as an abstract byte sink
(the only part of it `multi.go` uses is the `Read`/`Write`/`Close`
contract), and the three `MultiPrinter` loops are translated one-to-one,
instrumented with an event trace that records every call issued to an
underlying sink, in order, identified by its position in the list.

The printer-session command layer (`hoin.go` / the `escpos` package
itself) is not part of the available sources — only its tests and its
callers are — so it is modelled from the specification, as marked on each
definition.
-/

namespace Escpos

/-- Go errors as seen through the `error` interface: an opaque value;
a `none` result is Go's `nil` error. -/
abbrev GoError := String

/-- A byte slice, as a list of byte values. -/
abbrev Bytes := List Nat

/-- The contract `multi.go` uses from `escpos.Printer`: a duplex byte sink
with `Read(p) (n, err)`, `Write(p) (n, err)` and `Close() err`.
Each operation is modelled by the result it returns. -/
structure Printer where
  Read : Bytes → Nat × Option GoError
  Write : Bytes → Nat × Option GoError
  Close : Option GoError

/-- One call issued by the fan-out writer to the underlying sink at a
given list position. -/
inductive Event where
  | writeCall : Nat → Bytes → Event
  | readCall : Nat → Event
  | closeCall : Nat → Event
deriving DecidableEq

/-- The `MultiPrinter` struct of `cmd/multi.go`: an ordered list of
underlying printers. -/
structure MultiPrinter where
  dst : List Printer

/-- `NewMultiPrinter(printers ...escpos.Printer)` from `cmd/multi.go`:
wraps the argument list with no validation. -/
def NewMultiPrinter (printers : List Printer) : MultiPrinter :=
  ⟨printers⟩

/-- The loop body of `MultiPrinter.Read`: for each printer in order call
`printer.Read(p)`; on a non-nil error return that printer's `(n, err)`;
after the loop return `(0, nil)`. The first component is the trace of
calls issued, `i` the list position of the first printer. -/
def readLoop : List Printer → Nat → Bytes → List Event × (Nat × Option GoError)
  | [], _, _ => ([], (0, none))
  | printer :: rest, i, p =>
    match printer.Read p with
    | (n, some err) => ([Event.readCall i], (n, some err))
    | (_, none) =>
      let out := readLoop rest (i + 1) p
      (Event.readCall i :: out.1, out.2)

/-- `MultiPrinter.Read` from `cmd/multi.go`, with its call trace. -/
def MultiPrinter.Read (mp : MultiPrinter) (p : Bytes) : List Event × (Nat × Option GoError) :=
  readLoop mp.dst 0 p

/-- The loop body of `MultiPrinter.Write`: for each printer in order call
`printer.Write(p)`; on a non-nil error return that printer's `(n, err)`;
after the loop return `(0, nil)`. -/
def writeLoop : List Printer → Nat → Bytes → List Event × (Nat × Option GoError)
  | [], _, _ => ([], (0, none))
  | printer :: rest, i, p =>
    match printer.Write p with
    | (n, some err) => ([Event.writeCall i p], (n, some err))
    | (_, none) =>
      let out := writeLoop rest (i + 1) p
      (Event.writeCall i p :: out.1, out.2)

/-- `MultiPrinter.Write` from `cmd/multi.go`, with its call trace. -/
def MultiPrinter.Write (mp : MultiPrinter) (p : Bytes) : List Event × (Nat × Option GoError) :=
  writeLoop mp.dst 0 p

/-- The loop body of `MultiPrinter.Close`: for each printer in order call
`printer.Close()`; on a non-nil error return it; after the loop return
`nil`. -/
def closeLoop : List Printer → Nat → List Event × Option GoError
  | [], _ => ([], none)
  | printer :: rest, i =>
    match printer.Close with
    | some err => ([Event.closeCall i], some err)
    | none =>
      let out := closeLoop rest (i + 1)
      (Event.closeCall i :: out.1, out.2)

/-- `MultiPrinter.Close` from `cmd/multi.go`, with its call trace. -/
def MultiPrinter.Close (mp : MultiPrinter) : List Event × Option GoError :=
  closeLoop mp.dst 0

/-- A sink on which every operation succeeds (`Read` reports 5 bytes,
`Write` reports the full length). -/
def sinkOk : Printer :=
  ⟨fun _ => (5, none), fun p => (p.length, none), none⟩

/-- A sink on which every operation fails. -/
def sinkBad : Printer :=
  ⟨fun _ => (0, some "readfail"), fun _ => (3, some "writefail"), some "closefail"⟩

/-- Errors of the printer session, per the specification's error design:
`InvalidParameter` for a value outside the protocol-legal range, caught
before any write, and `ClosedSession` for an operation attempted after
close. -/
inductive SessionError where
  | InvalidParameter
  | ClosedSession
deriving DecidableEq

/-- Modelled from the spec: the printer session (`escpos.Printer`, whose
implementation file is not among the available sources — only its tests
and callers are). It wraps exactly one byte sink, here a test double that
records every byte it receives and always succeeds, plus the closed flag:
close releases the sink and subsequent calls fail with `ClosedSession`. -/
structure Session where
  buffer : Bytes
  closed : Bool
deriving DecidableEq

/-- Modelled from the spec: a fresh session bound to an empty recording
sink, as the unit tests construct with `hoin.NewPrinter(buffer)`. -/
def NewSession : Session :=
  ⟨[], false⟩

/-- Modelled from the spec: every session method encodes its command and
performs exactly one write of the resulting bytes to the bound sink,
returning the sink's error unchanged; on a closed session it fails with
`ClosedSession` and performs no sink I/O. -/
def Session.writeCmd (s : Session) (cmd : Bytes) : Session × Option SessionError :=
  if s.closed then (s, some SessionError.ClosedSession)
  else (⟨s.buffer ++ cmd, s.closed⟩, none)

/-- Modelled from the spec: `HT` emits the horizontal-tab byte `0x09`. -/
def Session.HT (s : Session) : Session × Option SessionError :=
  Session.writeCmd s [0x09]

/-- Modelled from the spec: `LF` emits the line-feed byte `0x0A`. -/
def Session.LF (s : Session) : Session × Option SessionError :=
  Session.writeCmd s [0x0A]

/-- Modelled from the spec: `CR` emits the carriage-return byte `0x0D`. -/
def Session.CR (s : Session) : Session × Option SessionError :=
  Session.writeCmd s [0x0D]

/-- Modelled from the spec: `Initialize` emits `ESC '@'`, the two bytes
`0x1B 0x40`. -/
def Session.Initialize (s : Session) : Session × Option SessionError :=
  Session.writeCmd s [0x1B, 0x40]

/-- Modelled from the spec: `WriteRaw` passes the given bytes to the sink
verbatim, with no transformation. -/
def Session.WriteRaw (s : Session) (b : Bytes) : Session × Option SessionError :=
  Session.writeCmd s b

/-- Modelled from the spec: `Println` writes the string's bytes followed
by exactly one line feed `0x0A`. -/
def Session.Println (s : Session) (str : Bytes) : Session × Option SessionError :=
  Session.writeCmd s (str ++ [0x0A])

/-- Modelled from the spec: `SetCharacterSize` emits
`GS '!' (height<<4 | width)`, that is `0x1D 0x21` and the packed size
byte; width and height must each lie in `0..7`, otherwise it fails with
`InvalidParameter` before any byte touches the sink. -/
def Session.SetCharacterSize (s : Session) (width height : Int) : Session × Option SessionError :=
  if s.closed then (s, some SessionError.ClosedSession)
  else if 0 ≤ width ∧ width ≤ 7 ∧ 0 ≤ height ∧ height ≤ 7 then
    Session.writeCmd s [0x1D, 0x21, height.toNat * 16 + width.toNat]
  else (s, some SessionError.InvalidParameter)

/-- Modelled from the spec: `Close` releases the underlying sink;
closing an already-closed session fails with `ClosedSession` and performs
no sink I/O. -/
def Session.Close (s : Session) : Session × Option SessionError :=
  if s.closed then (s, some SessionError.ClosedSession)
  else (⟨s.buffer, true⟩, none)

theorem writeLoop_ok (printers : List Printer) :
    ∀ (i : Nat) (p : Bytes), (∀ s ∈ printers, (s.Write p).2 = none) →
    writeLoop printers i p =
      ((List.range' i printers.length).map (fun j => Event.writeCall j p), (0, none)) := by
  induction printers with
  | nil => intro i p _; simp [writeLoop]
  | cons head tail ih =>
    intro i p h
    have hh : (head.Write p).2 = none := h head (List.mem_cons_self _ _)
    rcases hq : head.Write p with ⟨n, eo⟩
    rw [hq] at hh
    simp only at hh
    subst hh
    have htail := ih (i + 1) p (fun s hs => h s (List.mem_cons_of_mem _ hs))
    simp [writeLoop, hq, htail, List.range'_succ]

theorem writeLoop_fail (good : List Printer) :
    ∀ (bad : Printer) (rest : List Printer) (i : Nat) (p : Bytes) (n : Nat) (e : GoError),
    (∀ s ∈ good, (s.Write p).2 = none) → bad.Write p = (n, some e) →
    writeLoop (good ++ bad :: rest) i p =
      ((List.range' i (good.length + 1)).map (fun j => Event.writeCall j p), (n, some e)) := by
  induction good with
  | nil =>
    intro bad rest i p n e _ hbad
    simp [writeLoop, hbad, List.range'_succ]
  | cons head tail ih =>
    intro bad rest i p n e h hbad
    have hh : (head.Write p).2 = none := h head (List.mem_cons_self _ _)
    rcases hq : head.Write p with ⟨m, eo⟩
    rw [hq] at hh
    simp only at hh
    subst hh
    have htail := ih bad rest (i + 1) p n e (fun s hs => h s (List.mem_cons_of_mem _ hs)) hbad
    simp [writeLoop, hq, htail, List.range'_succ]

/-- C1: a fan-out `Write` writes the given bytes to each underlying sink
in list order; when every sink's write succeeds the trace covers every
sink; when a first sink fails, the call trace stops at exactly that sink
(no later sink is written) and that sink's error and count are returned. -/
theorem multiPrinter_write_first_failure (dst : List Printer) (p : Bytes) :
    ((∀ s ∈ dst, (s.Write p).2 = none) →
      MultiPrinter.Write (NewMultiPrinter dst) p =
        ((List.range dst.length).map (fun j => Event.writeCall j p), (0, none))) ∧
    (∀ (good : List Printer) (bad : Printer) (rest : List Printer) (n : Nat) (e : GoError),
      dst = good ++ bad :: rest →
      (∀ s ∈ good, (s.Write p).2 = none) → bad.Write p = (n, some e) →
      MultiPrinter.Write (NewMultiPrinter dst) p =
        ((List.range (good.length + 1)).map (fun j => Event.writeCall j p), (n, some e))) := by
  constructor
  · intro h
    rw [List.range_eq_range']
    exact writeLoop_ok dst 0 p h
  · intro good bad rest n e hsplit hgood hbad
    rw [List.range_eq_range']
    show writeLoop dst 0 p = _
    rw [hsplit]
    exact writeLoop_fail good bad rest 0 p n e hgood hbad

/-- C1 witness: with sinks `[A, B]` where `A` fails, `B` is never
written; with sinks `[A, B]` where `A` succeeds and `B` fails, `A` has
received the bytes and `B`'s error is returned. -/
theorem multiPrinter_write_first_failure_witness :
    MultiPrinter.Write (NewMultiPrinter [sinkBad, sinkOk]) [7] =
      ([Event.writeCall 0 [7]], (3, some "writefail")) ∧
    MultiPrinter.Write (NewMultiPrinter [sinkOk, sinkBad]) [7] =
      ([Event.writeCall 0 [7], Event.writeCall 1 [7]], (3, some "writefail")) := by
  constructor
  · exact ((multiPrinter_write_first_failure [sinkBad, sinkOk] [7]).2
      [] sinkBad [sinkOk] 3 "writefail" rfl (by intro s hs; simp at hs) rfl).trans (by decide)
  · exact ((multiPrinter_write_first_failure [sinkOk, sinkBad] [7]).2
      [sinkOk] sinkBad [] 3 "writefail" rfl (by decide) rfl).trans (by decide)

theorem readLoop_ok (printers : List Printer) :
    ∀ (i : Nat) (p : Bytes), (∀ s ∈ printers, (s.Read p).2 = none) →
    readLoop printers i p =
      ((List.range' i printers.length).map Event.readCall, (0, none)) := by
  induction printers with
  | nil => intro i p _; simp [readLoop]
  | cons head tail ih =>
    intro i p h
    have hh : (head.Read p).2 = none := h head (List.mem_cons_self _ _)
    rcases hq : head.Read p with ⟨n, eo⟩
    rw [hq] at hh
    simp only at hh
    subst hh
    have htail := ih (i + 1) p (fun s hs => h s (List.mem_cons_of_mem _ hs))
    simp [readLoop, hq, htail, List.range'_succ]

theorem readLoop_fail (good : List Printer) :
    ∀ (bad : Printer) (rest : List Printer) (i : Nat) (p : Bytes) (n : Nat) (e : GoError),
    (∀ s ∈ good, (s.Read p).2 = none) → bad.Read p = (n, some e) →
    readLoop (good ++ bad :: rest) i p =
      ((List.range' i (good.length + 1)).map Event.readCall, (n, some e)) := by
  induction good with
  | nil =>
    intro bad rest i p n e _ hbad
    simp [readLoop, hbad, List.range'_succ]
  | cons head tail ih =>
    intro bad rest i p n e h hbad
    have hh : (head.Read p).2 = none := h head (List.mem_cons_self _ _)
    rcases hq : head.Read p with ⟨m, eo⟩
    rw [hq] at hh
    simp only at hh
    subst hh
    have htail := ih bad rest (i + 1) p n e (fun s hs => h s (List.mem_cons_of_mem _ hs)) hbad
    simp [readLoop, hq, htail, List.range'_succ]

theorem closeLoop_ok (printers : List Printer) :
    ∀ (i : Nat), (∀ s ∈ printers, s.Close = none) →
    closeLoop printers i =
      ((List.range' i printers.length).map Event.closeCall, none) := by
  induction printers with
  | nil => intro i _; simp [closeLoop]
  | cons head tail ih =>
    intro i h
    have hh : head.Close = none := h head (List.mem_cons_self _ _)
    have htail := ih (i + 1) (fun s hs => h s (List.mem_cons_of_mem _ hs))
    simp [closeLoop, hh, htail, List.range'_succ]

theorem closeLoop_fail (good : List Printer) :
    ∀ (bad : Printer) (rest : List Printer) (i : Nat) (e : GoError),
    (∀ s ∈ good, s.Close = none) → bad.Close = some e →
    closeLoop (good ++ bad :: rest) i =
      ((List.range' i (good.length + 1)).map Event.closeCall, some e) := by
  induction good with
  | nil =>
    intro bad rest i e _ hbad
    simp [closeLoop, hbad, List.range'_succ]
  | cons head tail ih =>
    intro bad rest i e h hbad
    have hh : head.Close = none := h head (List.mem_cons_self _ _)
    have htail := ih bad rest (i + 1) e (fun s hs => h s (List.mem_cons_of_mem _ hs)) hbad
    simp [closeLoop, hh, htail, List.range'_succ]

/-- C8: a fan-out `Read` reads from each underlying sink in list order,
returns success (count 0, with all data discarded) only when every
underlying read succeeds, and otherwise stops at the first failing sink
and returns that read's error. -/
theorem multiPrinter_read_first_failure (dst : List Printer) (p : Bytes) :
    ((∀ s ∈ dst, (s.Read p).2 = none) →
      MultiPrinter.Read (NewMultiPrinter dst) p =
        ((List.range dst.length).map Event.readCall, (0, none))) ∧
    (∀ (good : List Printer) (bad : Printer) (rest : List Printer) (n : Nat) (e : GoError),
      dst = good ++ bad :: rest →
      (∀ s ∈ good, (s.Read p).2 = none) → bad.Read p = (n, some e) →
      MultiPrinter.Read (NewMultiPrinter dst) p =
        ((List.range (good.length + 1)).map Event.readCall, (n, some e))) := by
  constructor
  · intro h
    rw [List.range_eq_range']
    exact readLoop_ok dst 0 p h
  · intro good bad rest n e hsplit hgood hbad
    rw [List.range_eq_range']
    show readLoop dst 0 p = _
    rw [hsplit]
    exact readLoop_fail good bad rest 0 p n e hgood hbad

/-- C8 witness: with sinks `[A, B]` where `A`'s read fails, `B` is never
read and `A`'s error is returned; when both succeed the result is
`(0, nil)` with both sinks read in order. -/
theorem multiPrinter_read_first_failure_witness :
    MultiPrinter.Read (NewMultiPrinter [sinkBad, sinkOk]) [7] =
      ([Event.readCall 0], (0, some "readfail")) ∧
    MultiPrinter.Read (NewMultiPrinter [sinkOk, sinkOk]) [7] =
      ([Event.readCall 0, Event.readCall 1], (0, none)) := by
  constructor
  · exact ((multiPrinter_read_first_failure [sinkBad, sinkOk] [7]).2
      [] sinkBad [sinkOk] 0 "readfail" rfl (by intro s hs; simp at hs) rfl).trans (by decide)
  · exact ((multiPrinter_read_first_failure [sinkOk, sinkOk] [7]).1
      (by decide)).trans (by decide)

/-- C2 counterexample: with sinks `[A, B]` where `A`'s close fails, the
fan-out `Close` issues a close call only to `A` and stops — `B` never
receives a close call, contradicting the claim that closing continues
after an error so that every sink is closed. -/
theorem multiPrinter_close_counterexample :
    (MultiPrinter.Close (NewMultiPrinter [sinkBad, sinkOk])).1 = [Event.closeCall 0] ∧
    Event.closeCall 1 ∉ (MultiPrinter.Close (NewMultiPrinter [sinkBad, sinkOk])).1 ∧
    (MultiPrinter.Close (NewMultiPrinter [sinkBad, sinkOk])).2 = some "closefail" := by
  refine ⟨rfl, ?_, rfl⟩
  decide

/-- C2 amended: a fan-out `Close` closes each owned sink in order and
returns the first error encountered, but stops at the first sink whose
close fails: sinks after the first failure receive no close call. When
every close succeeds, every sink is closed and `nil` is returned. -/
theorem multiPrinter_close_first_failure (dst : List Printer) :
    ((∀ s ∈ dst, s.Close = none) →
      MultiPrinter.Close (NewMultiPrinter dst) =
        ((List.range dst.length).map Event.closeCall, none)) ∧
    (∀ (good : List Printer) (bad : Printer) (rest : List Printer) (e : GoError),
      dst = good ++ bad :: rest →
      (∀ s ∈ good, s.Close = none) → bad.Close = some e →
      MultiPrinter.Close (NewMultiPrinter dst) =
        ((List.range (good.length + 1)).map Event.closeCall, some e)) := by
  constructor
  · intro h
    rw [List.range_eq_range']
    exact closeLoop_ok dst 0 h
  · intro good bad rest e hsplit hgood hbad
    rw [List.range_eq_range']
    show closeLoop dst 0 = _
    rw [hsplit]
    exact closeLoop_fail good bad rest 0 e hgood hbad

/-- C2 amended witness: closing `[A, B]` with `B`'s close failing closes
`A` then `B` and returns `B`'s error; closing `[A, B]` with both closes
succeeding closes both and returns `nil`. -/
theorem multiPrinter_close_first_failure_witness :
    MultiPrinter.Close (NewMultiPrinter [sinkOk, sinkBad]) =
      ([Event.closeCall 0, Event.closeCall 1], some "closefail") ∧
    MultiPrinter.Close (NewMultiPrinter [sinkOk, sinkOk]) =
      ([Event.closeCall 0, Event.closeCall 1], none) := by
  constructor
  · exact ((multiPrinter_close_first_failure [sinkOk, sinkBad]).2
      [sinkOk] sinkBad [] "closefail" rfl (by decide) rfl).trans (by decide)
  · exact ((multiPrinter_close_first_failure [sinkOk, sinkOk]).1
      (by decide)).trans (by decide)

/-- C9: on a non-empty sink list, when every underlying write succeeds a
fan-out `Write` returns count 0 (regardless of the counts the sinks
reported, in particular not `len(p)`) with a `nil` error, and likewise
`Read` returns count 0 and `nil` even when underlying reads reported
bytes. -/
theorem multiPrinter_success_reports_zero (dst : List Printer) (p : Bytes)
    (_hne : dst ≠ [])
    (hw : ∀ s ∈ dst, (s.Write p).2 = none)
    (hr : ∀ s ∈ dst, (s.Read p).2 = none) :
    (MultiPrinter.Write (NewMultiPrinter dst) p).2 = (0, none) ∧
    (MultiPrinter.Read (NewMultiPrinter dst) p).2 = (0, none) := by
  constructor
  · show (writeLoop dst 0 p).2 = (0, none)
    rw [writeLoop_ok dst 0 p hw]
  · show (readLoop dst 0 p).2 = (0, none)
    rw [readLoop_ok dst 0 p hr]

/-- C9 witness: a single always-succeeding sink whose write reports the
full two-byte count and whose read reports five bytes still yields
`(0, nil)` from both fan-out operations. -/
theorem multiPrinter_success_reports_zero_witness :
    (MultiPrinter.Write (NewMultiPrinter [sinkOk]) [9, 9]).2 = (0, none) ∧
    (MultiPrinter.Read (NewMultiPrinter [sinkOk]) [9, 9]).2 = (0, none) :=
  multiPrinter_success_reports_zero [sinkOk] [9, 9] (List.cons_ne_nil sinkOk [])
    (by decide) (by decide)

/-- C10: a `MultiPrinter` built from the empty sink list is accepted by
`NewMultiPrinter` (no non-emptiness check), and on it `Write`, `Read` and
`Close` each succeed with count 0 and issue no call to any sink. -/
theorem multiPrinter_empty_ok (p : Bytes) :
    MultiPrinter.Write (NewMultiPrinter []) p = ([], (0, none)) ∧
    MultiPrinter.Read (NewMultiPrinter []) p = ([], (0, none)) ∧
    MultiPrinter.Close (NewMultiPrinter []) = ([], none) :=
  ⟨rfl, rfl, rfl⟩

/-- C3: on an open session, `HT`, `LF` and `CR` each deliver exactly
their documented one-byte sequence (`0x09`, `0x0A`, `0x0D`) to the byte
sink with no error, and `Initialize` delivers exactly the two bytes
`0x1B 0x40`. -/
theorem session_single_byte_commands (s : Session) (h : s.closed = false) :
    Session.HT s = (⟨s.buffer ++ [0x09], false⟩, none) ∧
    Session.LF s = (⟨s.buffer ++ [0x0A], false⟩, none) ∧
    Session.CR s = (⟨s.buffer ++ [0x0D], false⟩, none) ∧
    Session.Initialize s = (⟨s.buffer ++ [0x1B, 0x40], false⟩, none) := by
  simp [Session.HT, Session.LF, Session.CR, Session.Initialize, Session.writeCmd, h]

/-- C3 witness: on a fresh session the sink receives exactly `0x09`,
`0x0A`, `0x0D` and `0x1B 0x40` respectively. -/
theorem session_single_byte_commands_witness :
    Session.HT NewSession = (⟨[0x09], false⟩, none) ∧
    Session.LF NewSession = (⟨[0x0A], false⟩, none) ∧
    Session.CR NewSession = (⟨[0x0D], false⟩, none) ∧
    Session.Initialize NewSession = (⟨[0x1B, 0x40], false⟩, none) :=
  session_single_byte_commands NewSession rfl

/-- C4: on an open session, `Println(s)` delivers to the sink exactly the
bytes of `s` followed by exactly one `0x0A`, nothing else, with no
error. -/
theorem session_println_appends_linefeed (s : Session) (str : Bytes) (h : s.closed = false) :
    Session.Println s str = (⟨s.buffer ++ str ++ [0x0A], false⟩, none) := by
  simp [Session.Println, Session.writeCmd, h]

/-- C4 witness: printing the one-byte string `0x54` on a fresh session
leaves the sink holding exactly `0x54 0x0A`. -/
theorem session_println_appends_linefeed_witness :
    Session.Println NewSession [0x54] = (⟨[0x54, 0x0A], false⟩, none) :=
  session_println_appends_linefeed NewSession [0x54] rfl

/-- C5: on an open session, `WriteRaw(b)` delivers exactly `b` to the
sink, unchanged, with no error — a round-trip identity between the input
bytes and the sink contents. -/
theorem session_writeRaw_roundtrip (s : Session) (b : Bytes) (h : s.closed = false) :
    Session.WriteRaw s b = (⟨s.buffer ++ b, false⟩, none) := by
  simp [Session.WriteRaw, Session.writeCmd, h]

/-- C5 witness: writing `[1, 2, 3]` raw on a fresh session leaves the
sink holding exactly `[1, 2, 3]`. -/
theorem session_writeRaw_roundtrip_witness :
    Session.WriteRaw NewSession [1, 2, 3] = (⟨[1, 2, 3], false⟩, none) :=
  session_writeRaw_roundtrip NewSession [1, 2, 3] rfl

/-- C6: on an open session, `SetCharacterSize` accepts every width and
height in `0..7` and emits `GS '!'` with the packed size byte; for any
width or height outside `0..7` it fails with `InvalidParameter` and
leaves the session (hence the sink) untouched — no partial byte
emission. -/
theorem session_setCharacterSize_bounds (s : Session) (width height : Int)
    (h : s.closed = false) :
    ((0 ≤ width ∧ width ≤ 7 ∧ 0 ≤ height ∧ height ≤ 7) →
      Session.SetCharacterSize s width height =
        (⟨s.buffer ++ [0x1D, 0x21, height.toNat * 16 + width.toNat], false⟩, none)) ∧
    (¬(0 ≤ width ∧ width ≤ 7 ∧ 0 ≤ height ∧ height ≤ 7) →
      Session.SetCharacterSize s width height = (s, some SessionError.InvalidParameter)) := by
  constructor
  · intro hin
    simp [Session.SetCharacterSize, Session.writeCmd, h, hin]
  · intro hout
    simp [Session.SetCharacterSize, h, hout]

/-- C6 witness: width/height `0` and `7` are accepted (emitting the
packed byte), while width `8` and width `-1` are rejected with
`InvalidParameter` and the session is unchanged. -/
theorem session_setCharacterSize_bounds_witness :
    Session.SetCharacterSize NewSession 0 7 = (⟨[0x1D, 0x21, 112], false⟩, none) ∧
    Session.SetCharacterSize NewSession 7 0 = (⟨[0x1D, 0x21, 7], false⟩, none) ∧
    Session.SetCharacterSize NewSession 8 0 = (NewSession, some SessionError.InvalidParameter) ∧
    Session.SetCharacterSize NewSession (-1) 0 = (NewSession, some SessionError.InvalidParameter) := by
  refine ⟨?_, ?_, ?_, ?_⟩
  · exact ((session_setCharacterSize_bounds NewSession 0 7 rfl).1 (by decide)).trans (by decide)
  · exact ((session_setCharacterSize_bounds NewSession 7 0 rfl).1 (by decide)).trans (by decide)
  · exact (session_setCharacterSize_bounds NewSession 8 0 rfl).2 (by decide)
  · exact (session_setCharacterSize_bounds NewSession (-1) 0 rfl).2 (by decide)

/-- C7: closing an open session succeeds and yields the closed session
with the sink untouched; on that closed session a second `Close` and
every other method fail with `ClosedSession` and leave the session (hence
the sink) unchanged — no sink I/O after close. -/
theorem session_closed_rejects_all (t : Session) (b str : Bytes) (width height : Int)
    (hc : t.closed = false) :
    Session.Close t = (⟨t.buffer, true⟩, none) ∧
    Session.Close ⟨t.buffer, true⟩ = (⟨t.buffer, true⟩, some SessionError.ClosedSession) ∧
    Session.HT ⟨t.buffer, true⟩ = (⟨t.buffer, true⟩, some SessionError.ClosedSession) ∧
    Session.LF ⟨t.buffer, true⟩ = (⟨t.buffer, true⟩, some SessionError.ClosedSession) ∧
    Session.CR ⟨t.buffer, true⟩ = (⟨t.buffer, true⟩, some SessionError.ClosedSession) ∧
    Session.Initialize ⟨t.buffer, true⟩ = (⟨t.buffer, true⟩, some SessionError.ClosedSession) ∧
    Session.WriteRaw ⟨t.buffer, true⟩ b = (⟨t.buffer, true⟩, some SessionError.ClosedSession) ∧
    Session.Println ⟨t.buffer, true⟩ str = (⟨t.buffer, true⟩, some SessionError.ClosedSession) ∧
    Session.SetCharacterSize ⟨t.buffer, true⟩ width height =
      (⟨t.buffer, true⟩, some SessionError.ClosedSession) := by
  refine ⟨?_, ?_, ?_, ?_, ?_, ?_, ?_, ?_, ?_⟩ <;>
    simp [Session.Close, Session.HT, Session.LF, Session.CR, Session.Initialize,
      Session.WriteRaw, Session.Println, Session.SetCharacterSize, Session.writeCmd, hc]

/-- C7 witness: closing a fresh session then calling `Close`, `HT` and
`SetCharacterSize` again each fails with `ClosedSession`, the session
unchanged. -/
theorem session_closed_rejects_all_witness :
    Session.Close NewSession = (⟨[], true⟩, none) ∧
    Session.Close ⟨[], true⟩ = (⟨[], true⟩, some SessionError.ClosedSession) ∧
    Session.HT ⟨[], true⟩ = (⟨[], true⟩, some SessionError.ClosedSession) ∧
    Session.LF ⟨[], true⟩ = (⟨[], true⟩, some SessionError.ClosedSession) ∧
    Session.CR ⟨[], true⟩ = (⟨[], true⟩, some SessionError.ClosedSession) ∧
    Session.Initialize ⟨[], true⟩ = (⟨[], true⟩, some SessionError.ClosedSession) ∧
    Session.WriteRaw ⟨[], true⟩ [1] = (⟨[], true⟩, some SessionError.ClosedSession) ∧
    Session.Println ⟨[], true⟩ [2] = (⟨[], true⟩, some SessionError.ClosedSession) ∧
    Session.SetCharacterSize ⟨[], true⟩ 3 4 = (⟨[], true⟩, some SessionError.ClosedSession) :=
  session_closed_rejects_all NewSession [1] [2] 3 4 rfl

end Escpos
